import Mathlib

/-!
Verification development for the XML model-serialization subsystem of
`gammapy/utils/modeling.py` (classes `Parameter`, `ParameterList`,
`SourceModel`, `SourceLibrary`, `SpectralModel*`, `SpatialModel*`).

Embedding conventions:
* Python floats are modelled as rationals (`ℚ`).  All float operations the
  module performs (negation, reciprocal, squaring, equality) are exact on
  the values the claims exercise, so the rational model is faithful.
* Strings that may be the output of Python `str()` applied to a float are
  modelled by `PyStr`, whose `ofFloat` constructor records the float that
  was printed; `float(str(x)) == x` is a documented guarantee of Python,
  captured by `PyStr.pyFloat`.
* Fallible Python code is modelled with `Except PyError`.
* The source file contains unresolved textual merge-conflict markers; the
  definitions below follow the `HEAD` side of each conflicted region,
  which is the side the rest of the module depends on (it imports `numpy`,
  used by `set_parameter_errors`).
-/

deriving instance DecidableEq for Except

/-- Python exception values raised by the module or its collaborators. -/
inductive PyError where
  | unknownModelError (msg : String)
  | indexError (msg : String)
  | keyError (key : String)
  | valueError (msg : String)
  | typeError (msg : String)
  | attributeError (msg : String)
  | linAlgError (msg : String)
  | unitConversionError (msg : String)
  | zeroDivisionError (msg : String)
deriving DecidableEq, Repr

/-- Smallest exponent `k ≤ 30` such that `den` divides `10 ^ k`, if any.
Used to render a rational with a finite decimal expansion the way Python
prints the corresponding float. -/
def decExp (den : Nat) : Option Nat :=
  (List.range 31).find? (fun k => 10 ^ k % den == 0)

/-- Model of Python `str`/`repr` on a float value.  Rationals with a finite
decimal expansion are printed in decimal (integers with a trailing `.0`,
as Python does); other rationals fall back to a fraction rendering.  The
exact text only feeds `__str__` messages, where no claim depends on it. -/
def qRepr (q : ℚ) : String :=
  match decExp q.den with
  | some 0 => toString q.num ++ ".0"
  | some k =>
    let scaled := q.num.natAbs * (10 ^ k / q.den)
    let s := toString scaled
    let s := String.mk (List.replicate (k + 1 - s.length) '0') ++ s
    let sign := if q.num < 0 then "-" else ""
    sign ++ s.dropRight k ++ "." ++ s.takeRight k
  | none => toString q.num ++ "/" ++ toString q.den

/-- Numeric value of a digit string, most significant digit first. -/
def digitsVal (cs : List Char) : ℚ :=
  cs.foldl (fun acc c => acc * 10 + ((c.toNat - 48 : Nat) : ℚ)) 0

/-- Model of Python `float()` applied to a string: optional sign, decimal
digits, optional fractional part.  (Python also accepts exponents and
special values; the claims only exercise plain decimal literals.)
Returns `none` where Python raises `ValueError`. -/
def parseFloat (s : String) : Option ℚ :=
  let cs := s.toList
  let sgn : ℚ := match cs with
    | '-' :: _ => -1
    | _ => 1
  let body : List Char := match cs with
    | '-' :: rest => rest
    | '+' :: rest => rest
    | _ => cs
  let intPart := body.takeWhile (fun c => c.isDigit)
  match body.drop intPart.length with
  | [] =>
    if intPart.isEmpty then none
    else some (sgn * digitsVal intPart)
  | '.' :: frac =>
    if frac.all (fun c => c.isDigit) && !(intPart.isEmpty && frac.isEmpty) then
      some (sgn * (digitsVal intPart + digitsVal frac / (10 ^ frac.length : ℚ)))
    else none
  | _ => none

/-- A Python string as seen in an XML dict: either a raw string, or the
output of `str()` on a float (as produced when a model is serialized and
re-parsed).  `float(str(x)) == x` holds for every Python float, which is
what makes `pyFloat (ofFloat q) = some q` the faithful model. -/
inductive PyStr where
  | raw (s : String)
  | ofFloat (q : ℚ)
deriving DecidableEq, Repr

/-- Model of Python `float()` on a `PyStr`. -/
def PyStr.pyFloat : PyStr → Option ℚ
  | .raw s => parseFloat s
  | .ofFloat q => some q

/-- The text of a `PyStr` (used where the module treats it as a string). -/
def PyStr.text : PyStr → String
  | .raw s => s
  | .ofFloat q => qRepr q

/-- Single-quote character, used by the Python `repr` of strings. -/
def squote : String := String.singleton (Char.ofNat 39)

/-- Model of Python `repr` on a string (quoting only; no escape handling,
which no claim exercises). -/
def strRepr (s : String) : String := squote ++ s ++ squote

/-- Model of Python `repr` on a bool. -/
def boolRepr (b : Bool) : String := if b then "True" else "False"

/-- Model of Python `repr` on an optional float (`None` or the number). -/
def optRepr : Option ℚ → String
  | none => "None"
  | some q => qRepr q

/-- `class Parameter`: a named scalar value with unit, bounds and frozen
flag (`modeling.py` lines 64–97).  The constructor path taking an astropy
`Quantity` splits it into `value`/`unit`, so every constructed instance
has this shape. -/
structure Parameter where
  name : String
  value : ℚ
  unit : String
  parmin : Option ℚ
  parmax : Option ℚ
  frozen : Bool
deriving DecidableEq, Repr

/-- `Parameter(name, value, unit)` with the default bounds and frozen
flag, as used by the `from_*` factories. -/
def Parameter.mk3 (name : String) (value : ℚ) (unit : String) : Parameter :=
  ⟨name, value, unit, none, none, false⟩

/-- `Parameter.__str__` (lines 118–122): the fixed `Parameter(...)` format
with `repr`ed fields. -/
def Parameter.pyStr (p : Parameter) : String :=
  "Parameter(name=" ++ strRepr p.name ++ ", value=" ++ qRepr p.value ++
    ", unit=" ++ strRepr p.unit ++ ", min=" ++ optRepr p.parmin ++
    ", max=" ++ optRepr p.parmax ++ ", frozen=" ++ boolRepr p.frozen ++ ")"

/-- The attribute dict `xmltodict` produces for one `<parameter .../>`
element: keys `@name`, `@value`, `@unit`, each possibly absent. -/
structure ParamXmlAttrs where
  atName : Option PyStr
  atValue : Option PyStr
  atUnit : Option PyStr
deriving DecidableEq, Repr

/-- Sequential fallible mapping, the model of a Python list comprehension
or accumulation loop over fallible element constructors: elements are
processed in order and the first exception propagates. -/
def mapExcept (f : α → Except PyError β) : List α → Except PyError (List β)
  | [] => .ok []
  | a :: l => do
    let b ← f a
    let bs ← mapExcept f l
    pure (b :: bs)

/-- `Parameter.from_dict_xml` (lines 142–150): reads `@unit` with default
`''`, requires `@name` and `@value`, and coerces `@value` with `float()`.
Evaluation order of failures matches Python (keyword arguments are
evaluated left to right, so a missing `@name` is reported before a
missing or malformed `@value`). -/
def Parameter.from_dict_xml (data : ParamXmlAttrs) : Except PyError Parameter := do
  let unit := (data.atUnit.map PyStr.text).getD ""
  let name ← match data.atName with
    | some s => pure s.text
    | none => .error (.keyError "@name")
  let rawValue ← match data.atValue with
    | some s => pure s
    | none => .error (.keyError "@value")
  let value ← match rawValue.pyFloat with
    | some q => pure q
    | none => .error (.valueError ("could not convert string to float: " ++ rawValue.text))
  pure (Parameter.mk3 name value unit)

/-- `Parameter.to_xml` (lines 152–153): the fixed-format XML element, with
`value` rendered through Python string formatting. -/
def Parameter.to_xml (p : Parameter) : String :=
  "        <parameter name=\"" ++ p.name ++ "\" value=\"" ++ qRepr p.value ++
    "\" unit=\"" ++ p.unit ++ "\"/>"

/-- The attribute dict `xmltodict` recovers from `Parameter.to_xml`
output: `@value` carries the `str()` of the float value. -/
def Parameter.to_xml_dict (p : Parameter) : ParamXmlAttrs :=
  ⟨some (.raw p.name), some (.ofFloat p.value), some (.raw p.unit)⟩

/-- An astropy `Quantity`: a value together with a unit string. -/
structure Quantity where
  value : ℚ
  unit : String
deriving DecidableEq, Repr

/-- Model of astropy `Quantity.to`: unit conversion.  Conversion between
equal unit strings is the identity; conversion between distinct units is
modelled as failing (the claims only exercise same-unit conversions, and
astropy raises `UnitConversionError` on incompatible units). -/
def Quantity.to (q : Quantity) (unit : String) : Except PyError Quantity :=
  if q.unit = unit then .ok ⟨q.value, unit⟩
  else .error (.unitConversionError (q.unit ++ " and " ++ unit))

/-- `ParameterList` (lines 166–249): ordered parameters plus an optional
covariance matrix. -/
structure ParameterList where
  parameters : List Parameter
  covariance : Option (List (List ℚ))
deriving DecidableEq, Repr

/-- A `ParameterList` with no covariance, as built by `BaseModel.__init__`
from a plain list. -/
def ParameterList.ofList (ps : List Parameter) : ParameterList := ⟨ps, none⟩

/-- Rendering of the covariance for `ParameterList.__str__`: `None` or a
nested-list rendering of the matrix (approximating numpy array text; no
claim depends on the exact characters). -/
def covRepr : Option (List (List ℚ)) → String
  | none => "None"
  | some m =>
    "[" ++ String.intercalate ", "
      (m.map (fun row => "[" ++ String.intercalate ", " (row.map qRepr) ++ "]")) ++ "]"

/-- `ParameterList.__str__` (lines 188–193): the class name, one line per
parameter, then the covariance. -/
def ParameterList.pyStr (pl : ParameterList) : String :=
  "ParameterList" ++ String.join (pl.parameters.map (fun par => "\n" ++ par.pyStr)) ++
    "\n\nCovariance: " ++ covRepr pl.covariance

/-- The loop body of `ParameterList.__getitem__` (lines 195–199): return
the first parameter whose name equals the requested name. -/
def lookupLoop (name : String) : List Parameter → Option Parameter
  | [] => none
  | par :: rest => if name = par.name then some par else lookupLoop name rest

/-- `ParameterList.__getitem__` (lines 195–201): first match by name, else
`IndexError` whose message embeds the name and `str(self)`. -/
def ParameterList.getitem (pl : ParameterList) (name : String) : Except PyError Parameter :=
  match lookupLoop name pl.parameters with
  | some par => .ok par
  | none => .error (.indexError ("Parameter " ++ name ++ " not found for : " ++ pl.pyStr))

/-- `ParameterList.from_list_of_dict_xml` (lines 207–209): map the XML
parameter factory over the dicts, preserving order. -/
def ParameterList.from_list_of_dict_xml (data : List ParamXmlAttrs) :
    Except PyError ParameterList := do
  let ps ← mapExcept Parameter.from_dict_xml data
  pure ⟨ps, none⟩

/-- `ParameterList.to_xml` (lines 211–213): newline-joined parameter
elements. -/
def ParameterList.to_xml (pl : ParameterList) : String :=
  String.intercalate "\n" (pl.parameters.map Parameter.to_xml)

/-- Laplace-expansion determinant with explicit fuel (the fuel is the row
count, so it is always sufficient). -/
def detQFuel : Nat → List (List ℚ) → ℚ
  | 0, _ => 1
  | _, [] => 1
  | fuel + 1, row :: rest =>
    ((List.range row.length).map (fun j =>
      (-1 : ℚ) ^ j * row.getD j 0 * detQFuel fuel (rest.map (fun r => r.eraseIdx j)))).sum

/-- Determinant of a rational matrix given as rows. -/
def detQ (m : List (List ℚ)) : ℚ := detQFuel m.length m

/-- A correlated value as produced by the `uncertainties` package:
nominal value plus variance. -/
structure UFloat where
  nominal : ℚ
  variance : ℚ
deriving DecidableEq, Repr

/-- Model of `uncertainties.correlated_values` (external collaborator):
raises `LinAlgError` when the covariance argument is `None` (numpy's
linear-algebra layer rejects the resulting 0-dimensional array) or when
the matrix is not a nonsingular square matrix of matching size (the model
of "singular/invalid for the correlation algorithm"); otherwise returns
one correlated value per parameter. -/
def covValidB (n : Nat) (m : List (List ℚ)) : Bool :=
  m.length == n && m.all (fun row => row.length == n) && detQ m != 0

/-- Model of `uncertainties.correlated_values` (external collaborator),
see `covValidB` for the validity condition it enforces. -/
def correlated_values (values : List ℚ) (cov : Option (List (List ℚ))) :
    Except PyError (List UFloat) :=
  match cov with
  | none => .error (.linAlgError "0-dimensional array given")
  | some m =>
    if covValidB values.length m then
      .ok ((List.range values.length).map
        (fun i => ⟨values.getD i 0, (m.getD i []).getD i 0⟩))
    else .error (.linAlgError "singular or invalid covariance matrix")

/-- `ParameterList._ufloats` (lines 215–232): convert values and the
stored covariance into named correlated values; a `LinAlgError` from the
collaborator is re-raised as `ValueError('Covariance matrix not set.')`. -/
def ParameterList._ufloats (pl : ParameterList) :
    Except PyError (List (String × UFloat)) :=
  match correlated_values (pl.parameters.map (fun p => p.value)) pl.covariance with
  | .error (.linAlgError _) => .error (.valueError "Covariance matrix not set.")
  | .error e => .error e
  | .ok uarray => .ok ((pl.parameters.map (fun p => p.name)).zip uarray)

/-- `numpy.diag`: square matrix with the given values on the diagonal. -/
def np_diag (vs : List ℚ) : List (List ℚ) :=
  (List.range vs.length).map (fun i =>
    (List.range vs.length).map (fun j => if i = j then vs.getD i 0 else 0))

/-- numpy elementwise `** 2` on a matrix. -/
def mat_sq (m : List (List ℚ)) : List (List ℚ) :=
  m.map (fun row => row.map (fun x => x ^ 2))

/-- The error quantity used for one parameter by `set_parameter_errors`:
the entry of the mapping, defaulting to `0 * u.Unit(par.unit)`. -/
def errQuantity (errors : List (String × Quantity)) (par : Parameter) : Quantity :=
  (List.lookup par.name errors).getD ⟨0, par.unit⟩

/-- `ParameterList.set_parameter_errors` (lines 236–249): each parameter's
error is looked up (default zero in the parameter's own unit), converted
to the parameter's unit, and the covariance becomes `np.diag(values)**2`.
The mutation of `self.covariance` is modelled by returning the updated
list. -/
def ParameterList.set_parameter_errors (pl : ParameterList)
    (errors : List (String × Quantity)) : Except PyError ParameterList := do
  let values ← mapExcept
    (fun par => (Quantity.to (errQuantity errors par) par.unit).map Quantity.value)
    pl.parameters
  pure ⟨pl.parameters, some (mat_sq (np_diag values))⟩

/-- The spectral model hierarchy: `SpectralModelPowerLaw`,
`SpectralModelPowerLaw2`, `SpectralModelExpCutoff` (lines 434–486), each
owning one `ParameterList` via `BaseModel.__init__`. -/
inductive SpectralModel where
  | powerLaw (parameters : ParameterList)
  | powerLaw2 (parameters : ParameterList)
  | expCutoff (parameters : ParameterList)
deriving DecidableEq, Repr

/-- `SpectralModelPowerLaw.xml_type` (line 435). -/
def SpectralModelPowerLaw.xml_type : String := "PowerLaw"

/-- `SpectralModelPowerLaw.xml_types` (line 436). -/
def SpectralModelPowerLaw.xml_types : List String := [SpectralModelPowerLaw.xml_type]

/-- `SpectralModelPowerLaw2.xml_type` (line 452). -/
def SpectralModelPowerLaw2.xml_type : String := "PowerLaw2"

/-- `SpectralModelPowerLaw2.xml_types` (line 453). -/
def SpectralModelPowerLaw2.xml_types : List String := [SpectralModelPowerLaw2.xml_type]

/-- `SpectralModelExpCutoff.xml_type` (line 471). -/
def SpectralModelExpCutoff.xml_type : String := "ExpCutoff"

/-- `SpectralModelExpCutoff.xml_types` (line 472). -/
def SpectralModelExpCutoff.xml_types : List String := [SpectralModelExpCutoff.xml_type]

/-- The `ParameterList` owned by a spectral model. -/
def SpectralModel.parameters : SpectralModel → ParameterList
  | .powerLaw pl => pl
  | .powerLaw2 pl => pl
  | .expCutoff pl => pl

/-- The `xml_type` class attribute as resolved on an instance. -/
def SpectralModel.xml_type : SpectralModel → String
  | .powerLaw _ => SpectralModelPowerLaw.xml_type
  | .powerLaw2 _ => SpectralModelPowerLaw2.xml_type
  | .expCutoff _ => SpectralModelExpCutoff.xml_type

/-- `SpectralModelPowerLaw.from_plist` (lines 438–448): amplitude becomes
`Prefactor`, the index is negated into `Index`, the reference becomes
`Scale`; units are copied unchanged. -/
def SpectralModelPowerLaw.from_plist (plist : ParameterList) :
    Except PyError SpectralModel := do
  let par ← plist.getitem "amplitude"
  let prefactor := Parameter.mk3 "Prefactor" par.value par.unit
  let par ← plist.getitem "index"
  let index := Parameter.mk3 "Index" (-par.value) par.unit
  let par ← plist.getitem "reference"
  let scale := Parameter.mk3 "Scale" par.value par.unit
  pure (.powerLaw (ParameterList.ofList [prefactor, index, scale]))

/-- `SpectralModelPowerLaw2.from_plist` (lines 455–467): amplitude becomes
`Integral`, the index is negated into `Index`, `emin`/`emax` become
`LowerLimit`/`UpperLimit`; units are copied unchanged. -/
def SpectralModelPowerLaw2.from_plist (plist : ParameterList) :
    Except PyError SpectralModel := do
  let par ← plist.getitem "amplitude"
  let integral := Parameter.mk3 "Integral" par.value par.unit
  let par ← plist.getitem "index"
  let index := Parameter.mk3 "Index" (-par.value) par.unit
  let par ← plist.getitem "emin"
  let lower_limit := Parameter.mk3 "LowerLimit" par.value par.unit
  let par ← plist.getitem "emax"
  let upper_limit := Parameter.mk3 "UpperLimit" par.value par.unit
  pure (.powerLaw2 (ParameterList.ofList [integral, index, lower_limit, upper_limit]))

/-- `SpectralModelExpCutoff.from_plist` (lines 474–486): amplitude becomes
`Prefactor`, the index is copied (not negated) into `Index`, `Cutoff` is
the reciprocal `1 / lambda_` (Python raises `ZeroDivisionError` on a zero
float), the reference becomes `Scale`; every unit, including the cutoff
unit, is copied from the catalog parameter unchanged. -/
def SpectralModelExpCutoff.from_plist (plist : ParameterList) :
    Except PyError SpectralModel := do
  let par ← plist.getitem "amplitude"
  let prefactor := Parameter.mk3 "Prefactor" par.value par.unit
  let par ← plist.getitem "index"
  let index := Parameter.mk3 "Index" par.value par.unit
  let par ← plist.getitem "lambda_"
  if par.value = 0 then
    .error (.zeroDivisionError "float division by zero")
  else
    let cutoff := Parameter.mk3 "Cutoff" (1 / par.value) par.unit
    let par ← plist.getitem "reference"
    let scale := Parameter.mk3 "Scale" par.value par.unit
    pure (.expCutoff (ParameterList.ofList [prefactor, index, cutoff, scale]))

/-- The dict `xmltodict` produces for a repeated child element: absent
when there are no such children, the dict itself for exactly one child,
and a list of dicts for two or more. -/
inductive XChildren (α : Type) where
  | absent : XChildren α
  | one : α → XChildren α
  | many : List α → XChildren α
deriving DecidableEq, Repr

/-- How `xmltodict` folds a list of repeated child elements. -/
def xchildrenOfList : List α → XChildren α
  | [] => .absent
  | [a] => .one a
  | l => .many l

/-- The dict `xmltodict` produces for a `<spectrum>` element: its `@type`
attribute and its `parameter` children. -/
structure SpectrumXml where
  atType : String
  parameter : XChildren ParamXmlAttrs
deriving DecidableEq, Repr

/-- The dict `xmltodict` produces for a `<spatialModel>`/`<radialModel>`
element: its `@type` attribute and its `parameter` children. -/
structure SpatialXml where
  atType : String
  parameter : XChildren ParamXmlAttrs
deriving DecidableEq, Repr

/-- `SpectralModel.from_xml_dict` (lines 394–408): parse all `parameter`
children first (a missing key raises `KeyError`; a single child gives a
plain dict whose iteration yields attribute-name strings, on which
`from_dict_xml` raises `AttributeError`), then dispatch on `@type` over
the registered spectral types in order; an unmatched tag raises
`UnknownModelError` — whose message, in the source, reads "Unknown
spatial model" even in this spectral dispatcher. -/
def SpectralModel.from_xml_dict (data : SpectrumXml) : Except PyError SpectralModel := do
  let model_type := data.atType
  let parameters ← match data.parameter with
    | .absent => .error (.keyError "parameter")
    | .one _ => .error (.attributeError "str object has no attribute get")
    | .many ds => ParameterList.from_list_of_dict_xml ds
  if model_type = SpectralModelPowerLaw.xml_type then
    pure (.powerLaw parameters)
  else if model_type = SpectralModelPowerLaw2.xml_type then
    pure (.powerLaw2 parameters)
  else if model_type = SpectralModelExpCutoff.xml_type then
    pure (.expCutoff parameters)
  else
    .error (.unknownModelError ("Unknown spatial model: " ++ model_type))

/-- `SpectralModel.to_xml` (lines 430–431). -/
def SpectralModel.to_xml (m : SpectralModel) : String :=
  "<spectrum type=\"" ++ m.xml_type ++ "\">\n" ++ m.parameters.to_xml ++
    "\n    </spectrum>"

/-- The dict `xmltodict` recovers from `SpectralModel.to_xml` output. -/
def SpectralModel.to_xml_dict (m : SpectralModel) : SpectrumXml :=
  ⟨m.xml_type, xchildrenOfList (m.parameters.parameters.map Parameter.to_xml_dict)⟩

/-- The spatial model hierarchy: `SpatialModelPoint`, `SpatialModelGauss`,
`SpatialModelShell` (lines 531–578). -/
inductive SpatialModel where
  | point (parameters : ParameterList)
  | gauss (parameters : ParameterList)
  | shell (parameters : ParameterList)
deriving DecidableEq, Repr

/-- `SpatialModelPoint.xml_source_type` (line 532). -/
def SpatialModelPoint.xml_source_type : String := "PointSource"

/-- `SpatialModelPoint.xml_type` (line 533). -/
def SpatialModelPoint.xml_type : String := "Point"

/-- `SpatialModelPoint.xml_types` (line 534). -/
def SpatialModelPoint.xml_types : List String := [SpatialModelPoint.xml_type]

/-- `SpatialModelGauss.xml_source_type` (line 547). -/
def SpatialModelGauss.xml_source_type : String := "ExtendedSource"

/-- `SpatialModelGauss.xml_type` (line 548). -/
def SpatialModelGauss.xml_type : String := "Gauss"

/-- `SpatialModelGauss.xml_types` (line 549). -/
def SpatialModelGauss.xml_types : List String := [SpatialModelGauss.xml_type, "Gaussian"]

/-- `SpatialModelShell.xml_source_type` (line 565). -/
def SpatialModelShell.xml_source_type : String := "ExtendedSource"

/-- `SpatialModelShell.xml_type` (line 566). -/
def SpatialModelShell.xml_type : String := "Shell"

/-- `SpatialModelShell.xml_types` (line 567). -/
def SpatialModelShell.xml_types : List String := [SpatialModelShell.xml_type, "RadialShell"]

/-- The `ParameterList` owned by a spatial model. -/
def SpatialModel.parameters : SpatialModel → ParameterList
  | .point pl => pl
  | .gauss pl => pl
  | .shell pl => pl

/-- The `xml_type` class attribute as resolved on an instance. -/
def SpatialModel.xml_type : SpatialModel → String
  | .point _ => SpatialModelPoint.xml_type
  | .gauss _ => SpatialModelGauss.xml_type
  | .shell _ => SpatialModelShell.xml_type

/-- The `xml_source_type` class attribute as resolved on an instance. -/
def SpatialModel.xml_source_type : SpatialModel → String
  | .point _ => SpatialModelPoint.xml_source_type
  | .gauss _ => SpatialModelGauss.xml_source_type
  | .shell _ => SpatialModelShell.xml_source_type

/-- `SpatialModel.from_xml_dict` (lines 495–510): dispatch `@type` against
each variant's `xml_types` in order; every branch constructs its variant
with the literal empty parameter list — the dict's `parameter` entries
are never read.  An unmatched tag raises `UnknownModelError`. -/
def SpatialModel.from_xml_dict (data : SpatialXml) : Except PyError SpatialModel :=
  let model_type := data.atType
  if SpatialModelPoint.xml_types.contains model_type then
    .ok (.point (ParameterList.ofList []))
  else if SpatialModelGauss.xml_types.contains model_type then
    .ok (.gauss (ParameterList.ofList []))
  else if SpatialModelShell.xml_types.contains model_type then
    .ok (.shell (ParameterList.ofList []))
  else
    .error (.unknownModelError ("Unknown spatial model: " ++ model_type))

/-- `SpatialModel.to_xml` (lines 527–528): always the `spatialModel` tag. -/
def SpatialModel.to_xml (m : SpatialModel) : String :=
  "<spatialModel type=\"" ++ m.xml_type ++ "\">\n" ++ m.parameters.to_xml ++
    "\n    </spatialModel>"

/-- The dict `xmltodict` recovers from `SpatialModel.to_xml` output. -/
def SpatialModel.to_xml_dict (m : SpatialModel) : SpatialXml :=
  ⟨m.xml_type, xchildrenOfList (m.parameters.parameters.map Parameter.to_xml_dict)⟩

/-- The catalog record fields used by the spatial `from_gammacat`
factories: `source.data` provides positions and the morphology size as
quantities. -/
structure GammacatSourceData where
  glon : Quantity
  glat : Quantity
  morph_sigma : Quantity
deriving DecidableEq, Repr

/-- `SpatialModelPoint.from_gammacat` (lines 536–543). -/
def SpatialModelPoint.from_gammacat (d : GammacatSourceData) : SpatialModel :=
  let glon := Parameter.mk3 "GLON" d.glon.value d.glon.unit
  let glat := Parameter.mk3 "GLAT" d.glat.value d.glat.unit
  .point (ParameterList.ofList [glon, glat])

/-- `SpatialModelGauss.from_gammacat` (lines 551–561). -/
def SpatialModelGauss.from_gammacat (d : GammacatSourceData) : SpatialModel :=
  let glon := Parameter.mk3 "GLON" d.glon.value d.glon.unit
  let glat := Parameter.mk3 "GLAT" d.glat.value d.glat.unit
  let sigma := Parameter.mk3 "Sigma" d.morph_sigma.value d.morph_sigma.unit
  .gauss (ParameterList.ofList [glon, glat, sigma])

/-- `SpatialModelShell.from_gammacat` (lines 569–578): `GLON`, `GLAT`,
`Radius` taking the value and unit of `morph_sigma`, and `Width` fixed at
`0` with unit `deg`, in that order. -/
def SpatialModelShell.from_gammacat (d : GammacatSourceData) : SpatialModel :=
  let glon := Parameter.mk3 "GLON" d.glon.value d.glon.unit
  let glat := Parameter.mk3 "GLAT" d.glat.value d.glat.unit
  let radius := Parameter.mk3 "Radius" d.morph_sigma.value d.morph_sigma.unit
  let width := Parameter.mk3 "Width" 0 "deg"
  .shell (ParameterList.ofList [glon, glat, radius, width])

/-- `SourceModel` (lines 297–356): a named source with a type tag, one
spatial model and one spectral model. -/
structure SourceModel where
  source_name : String
  source_type : String
  spatial_model : SpatialModel
  spectral_model : SpectralModel
deriving DecidableEq, Repr

/-- The dict `xmltodict` produces for one `<source>` element: `@name` and
`@type` attributes, a `spectrum` child, and optionally a `radialModel`
and/or `spatialModel` child (an `Option` field models key presence). -/
structure SourceXml where
  atName : String
  atType : String
  spectrum : SpectrumXml
  radialModel : Option SpatialXml
  spatialModel : Option SpatialXml
deriving DecidableEq, Repr

/-- Rendering of a `SourceXml` dict for the `UnknownModelError` message of
`SourceModel.from_xml_dict` (approximating Python's dict formatting; the
claims only constrain the message prefix before it). -/
def SourceXml.pyStr (d : SourceXml) : String :=
  "OrderedDict(name=" ++ strRepr d.atName ++ ", type=" ++ strRepr d.atType ++ ")"

/-- `SourceModel.from_xml_dict` (lines 324–343): read `@name` and `@type`,
build the spectral model from the `spectrum` entry, then build the
spatial model from the `radialModel` entry if that key is present, else
from the `spatialModel` entry, and raise `UnknownModelError` stating that
no spatial / radial model was found when both keys are absent. -/
def SourceModel.from_xml_dict (data : SourceXml) : Except PyError SourceModel := do
  let source_name := data.atName
  let source_type := data.atType
  let spectral_model ← SpectralModel.from_xml_dict data.spectrum
  let spatial_model ← match data.radialModel with
    | some r => SpatialModel.from_xml_dict r
    | none => match data.spatialModel with
      | some s => SpatialModel.from_xml_dict s
      | none => .error (.unknownModelError
          ("No spatial / radial model found for: " ++ data.pyStr))
  pure ⟨source_name, source_type, spatial_model, spectral_model⟩

/-- `SourceModel.to_xml` (lines 345–356). -/
def SourceModel.to_xml (s : SourceModel) : String :=
  "<source name=\"" ++ s.source_name ++ "\" type=\"" ++ s.source_type ++ "\">\n" ++
    "    " ++ s.spectral_model.to_xml ++ "\n" ++
    "    " ++ s.spatial_model.to_xml ++ "\n" ++
    "</source>\n"

/-- The dict `xmltodict` recovers from `SourceModel.to_xml` output: the
spatial fragment is always serialized under the `spatialModel` tag, so
the parsed dict never has a `radialModel` key. -/
def SourceModel.to_xml_dict (s : SourceModel) : SourceXml :=
  ⟨s.source_name, s.source_type, s.spectral_model.to_xml_dict,
    none, some s.spatial_model.to_xml_dict⟩

/-- `SourceLibrary` (lines 252–294): an ordered list of source models. -/
structure SourceLibrary where
  source_list : List SourceModel
deriving DecidableEq, Repr

/-- `SourceLibrary.from_list_of_dict` + the dict-indexing part of
`SourceLibrary.from_xml` (lines 262–275).  `xmltodict.parse` hands back
`full_dict['source_library']['source']` as `XChildren`: with no `source`
element the key lookup raises `KeyError`; with exactly one, the entry is
a single dict and the `for source_data in data` loop iterates over its
string keys, so `SourceModel.from_xml_dict` indexes a string with a
string key and Python raises `TypeError`; with two or more, the entry is
a list and each element is parsed in order. -/
def SourceLibrary.from_xml (sources : XChildren SourceXml) :
    Except PyError SourceLibrary :=
  match sources with
  | .absent => .error (.keyError "source")
  | .one _ => .error (.typeError "string indices must be integers")
  | .many ds => do
    let source_list ← mapExcept SourceModel.from_xml_dict ds
    pure ⟨source_list⟩

/-- `SourceLibrary.to_xml` (lines 277–294): the fixed document template
with default title and header. -/
def SourceLibrary.to_xml (lib : SourceLibrary) : String :=
  let sources_xml := String.intercalate "\n" (lib.source_list.map SourceModel.to_xml)
  "<?xml version=\"1.0\" ?>\n" ++ "\n" ++ "\n" ++
    "<source_library title=\"sources\">\n" ++ "\n" ++
    sources_xml ++ "\n" ++ "</source_library>\n"

/-- The `source` entries `xmltodict.parse` recovers from
`SourceLibrary.to_xml` output, i.e. the argument `from_xml` effectively
receives on a round trip: one `SourceXml` dict per serialized source,
folded by the single-vs-list convention of `xmltodict`. -/
def SourceLibrary.to_xml_parsed (lib : SourceLibrary) : XChildren SourceXml :=
  xchildrenOfList (lib.source_list.map SourceModel.to_xml_dict)

/-- The (name, value, unit) triples of a parameter list, the data the
round-trip and construction claims compare. -/
def paramTriples (pl : ParameterList) : List (String × ℚ × String) :=
  pl.parameters.map (fun p => (p.name, p.value, p.unit))

/-- What one serialize-and-parse pass does to a `Parameter`: name, value
and unit survive; bounds and the frozen flag are not serialized and come
back at their defaults. -/
def rtParameter (p : Parameter) : Parameter :=
  Parameter.mk3 p.name p.value p.unit

/-- What one serialize-and-parse pass does to a spectral model: the
variant survives (each variant's `xml_type` is dispatched back to the
same variant) and every parameter round-trips through `rtParameter`. -/
def rtSpectral : SpectralModel → SpectralModel
  | .powerLaw pl => .powerLaw ⟨pl.parameters.map rtParameter, none⟩
  | .powerLaw2 pl => .powerLaw2 ⟨pl.parameters.map rtParameter, none⟩
  | .expCutoff pl => .expCutoff ⟨pl.parameters.map rtParameter, none⟩

/-- What one serialize-and-parse pass does to a spatial model: the
variant survives but the parameter list comes back empty, because
`SpatialModel.from_xml_dict` never reads the serialized parameters. -/
def rtSpatial : SpatialModel → SpatialModel
  | .point _ => .point (ParameterList.ofList [])
  | .gauss _ => .gauss (ParameterList.ofList [])
  | .shell _ => .shell (ParameterList.ofList [])

/-- What one serialize-and-parse pass does to a whole source. -/
def rtSource (s : SourceModel) : SourceModel :=
  ⟨s.source_name, s.source_type, rtSpatial s.spatial_model, rtSpectral s.spectral_model⟩

theorem lookupLoop_eq_find (name : String) (l : List Parameter) :
    lookupLoop name l = l.find? (fun q => name == q.name) := by
  induction l with
  | nil => rfl
  | cons p rest ih =>
    simp only [lookupLoop, List.find?]
    by_cases h : name = p.name
    · simp [h]
    · have hb : (name == p.name) = false := by simpa using h
      simp [h, hb, ih]

/-- C9: for every XML attribute dict with `@name` and `@value` keys (and
an optional `@unit` key), `Parameter.from_dict_xml` returns a `Parameter`
whose name is the `@name` string, whose value is the float coercion of
the `@value` string, and whose unit is the `@unit` string defaulting to
the empty string when absent. -/
theorem C9_from_dict_xml_fields (d : ParamXmlAttrs) (name vs : PyStr) (q : ℚ)
    (hn : d.atName = some name) (hv : d.atValue = some vs)
    (hq : vs.pyFloat = some q) :
    Parameter.from_dict_xml d =
      .ok (Parameter.mk3 name.text q ((d.atUnit.map PyStr.text).getD "")) := by
  simp [Parameter.from_dict_xml, hn, hv, hq, pure, Except.pure, Bind.bind, Except.bind]

/-- C9 witness: `from_dict_xml` on `@name` "Index", `@value` "-2.3",
`@unit` "TeV-1" yields name "Index", value -2.3, unit "TeV-1". -/
theorem C9_witness :
    Parameter.from_dict_xml ⟨some (.raw "Index"), some (.raw "-2.3"), some (.raw "TeV-1")⟩ =
      .ok (Parameter.mk3 "Index" (-23/10) "TeV-1") := by
  have h := C9_from_dict_xml_fields
    ⟨some (.raw "Index"), some (.raw "-2.3"), some (.raw "TeV-1")⟩
    (.raw "Index") (.raw "-2.3") (-23/10) rfl rfl
    (by simp +decide [PyStr.pyFloat, parseFloat, digitsVal, List.takeWhile]; norm_num)
  simpa [PyStr.text] using h

/-- C5: `ParameterList.__getitem__` returns the first parameter whose
name equals the requested name; when no parameter matches it fails with
an `IndexError` whose message contains the missing name and the string
representation of the list. -/
theorem C5_getitem_first_match (pl : ParameterList) (name : String) :
    (∀ p, pl.parameters.find? (fun q => name == q.name) = some p →
      pl.getitem name = .ok p) ∧
    ((∀ p ∈ pl.parameters, ¬(name = p.name)) →
      ∃ msg, pl.getitem name = .error (.indexError msg) ∧
        (∃ a b, msg = a ++ name ++ b) ∧ (∃ a b, msg = a ++ pl.pyStr ++ b)) := by
  constructor
  · intro p hp
    simp [ParameterList.getitem, lookupLoop_eq_find, hp]
  · intro h
    have hfind : pl.parameters.find? (fun q => name == q.name) = none := by
      rw [List.find?_eq_none]
      intro p hp
      simpa using h p hp
    refine ⟨"Parameter " ++ name ++ " not found for : " ++ pl.pyStr, ?_, ?_, ?_⟩
    · simp [ParameterList.getitem, lookupLoop_eq_find, hfind]
    · exact ⟨"Parameter ", " not found for : " ++ pl.pyStr, by simp [String.append_assoc]⟩
    · exact ⟨"Parameter " ++ name ++ " not found for : ", "", by simp [String.append_assoc]⟩

/-- C5 witness: a list holding a parameter named Sigma returns it for
`['Sigma']`, and fails for `['Nope']` with a message naming Nope. -/
theorem C5_witness :
    ParameterList.getitem ⟨[Parameter.mk3 "Sigma" 1 "deg"], none⟩ "Sigma" =
      .ok (Parameter.mk3 "Sigma" 1 "deg") ∧
    ∃ msg, ParameterList.getitem ⟨[Parameter.mk3 "Sigma" 1 "deg"], none⟩ "Nope" =
      .error (.indexError msg) ∧ (∃ a b, msg = a ++ "Nope" ++ b) := by
  constructor
  · exact (C5_getitem_first_match ⟨[Parameter.mk3 "Sigma" 1 "deg"], none⟩ "Sigma").1
      (Parameter.mk3 "Sigma" 1 "deg") (by decide)
  · obtain ⟨msg, h1, h2, h3⟩ :=
      (C5_getitem_first_match ⟨[Parameter.mk3 "Sigma" 1 "deg"], none⟩ "Nope").2
      (by decide)
    exact ⟨msg, h1, h2⟩

/-- C2: for every XML dict whose `@type` matches a known spatial variant,
`SpatialModel.from_xml_dict` returns a model of that variant whose
parameter list is empty, whatever the dict's `parameter` entries are
(the universally quantified dict carries an arbitrary `parameter`
field, which the result never depends on). -/
theorem C2_spatial_params_discarded (d : SpatialXml) :
    (SpatialModelPoint.xml_types.contains d.atType = true →
      SpatialModel.from_xml_dict d = .ok (.point (ParameterList.ofList []))) ∧
    (SpatialModelGauss.xml_types.contains d.atType = true →
      SpatialModel.from_xml_dict d = .ok (.gauss (ParameterList.ofList []))) ∧
    (SpatialModelShell.xml_types.contains d.atType = true →
      SpatialModel.from_xml_dict d = .ok (.shell (ParameterList.ofList []))) := by
  refine ⟨?_, ?_, ?_⟩ <;> intro h
  · have h' : d.atType = "Point" := by
      simpa [SpatialModelPoint.xml_types, SpatialModelPoint.xml_type] using h
    simp +decide [SpatialModel.from_xml_dict, h']
  · have h' : d.atType = "Gauss" ∨ d.atType = "Gaussian" := by
      simpa [SpatialModelGauss.xml_types, SpatialModelGauss.xml_type] using h
    rcases h' with h' | h' <;> simp +decide [SpatialModel.from_xml_dict, h']
  · have h' : d.atType = "Shell" ∨ d.atType = "RadialShell" := by
      simpa [SpatialModelShell.xml_types, SpatialModelShell.xml_type] using h
    rcases h' with h' | h' <;> simp +decide [SpatialModel.from_xml_dict, h']

/-- C2 witness: a Gauss-typed dict carrying three parameter entries still
comes back with an empty parameter list. -/
theorem C2_witness :
    SpatialModel.from_xml_dict
      ⟨"Gauss", .many
        [⟨some (.raw "GLON"), some (.raw "1"), some (.raw "deg")⟩,
         ⟨some (.raw "GLAT"), some (.raw "2"), some (.raw "deg")⟩,
         ⟨some (.raw "Sigma"), some (.raw "3"), some (.raw "deg")⟩]⟩ =
      .ok (.gauss (ParameterList.ofList [])) :=
  (C2_spatial_params_discarded
    ⟨"Gauss", .many
      [⟨some (.raw "GLON"), some (.raw "1"), some (.raw "deg")⟩,
       ⟨some (.raw "GLAT"), some (.raw "2"), some (.raw "deg")⟩,
       ⟨some (.raw "Sigma"), some (.raw "3"), some (.raw "deg")⟩]⟩).2.1 (by decide)

/-- C10: `SpatialModelShell.from_gammacat` produces exactly the
parameters GLON, GLAT, Radius, Width in that order, with Radius taking
the value and unit of `morph_sigma` and Width being 0 deg. -/
theorem C10_shell_from_gammacat (d : GammacatSourceData) :
    ∃ pl, SpatialModelShell.from_gammacat d = SpatialModel.shell pl ∧
      paramTriples pl =
        [("GLON", d.glon.value, d.glon.unit),
         ("GLAT", d.glat.value, d.glat.unit),
         ("Radius", d.morph_sigma.value, d.morph_sigma.unit),
         ("Width", 0, "deg")] := by
  refine ⟨_, rfl, ?_⟩
  simp [paramTriples, ParameterList.ofList, Parameter.mk3, SpatialModelShell.from_gammacat]

/-- C3: the catalog-to-model spectral factories negate the index for the
two power-law variants, take the reciprocal of `lambda_` for the cutoff
(which copies the catalog index unnegated), and copy every unit — the
cutoff unit included — from the corresponding catalog parameter
unchanged. -/
theorem C3_from_plist_transforms (plist : ParameterList)
    (pa pidx pref pemin pemax plam : Parameter)
    (ha : plist.getitem "amplitude" = .ok pa)
    (hi : plist.getitem "index" = .ok pidx)
    (hr : plist.getitem "reference" = .ok pref)
    (hemin : plist.getitem "emin" = .ok pemin)
    (hemax : plist.getitem "emax" = .ok pemax)
    (hlam : plist.getitem "lambda_" = .ok plam)
    (hlz : plam.value ≠ 0) :
    SpectralModelPowerLaw.from_plist plist = .ok (.powerLaw (ParameterList.ofList
      [Parameter.mk3 "Prefactor" pa.value pa.unit,
       Parameter.mk3 "Index" (-pidx.value) pidx.unit,
       Parameter.mk3 "Scale" pref.value pref.unit])) ∧
    SpectralModelPowerLaw2.from_plist plist = .ok (.powerLaw2 (ParameterList.ofList
      [Parameter.mk3 "Integral" pa.value pa.unit,
       Parameter.mk3 "Index" (-pidx.value) pidx.unit,
       Parameter.mk3 "LowerLimit" pemin.value pemin.unit,
       Parameter.mk3 "UpperLimit" pemax.value pemax.unit])) ∧
    SpectralModelExpCutoff.from_plist plist = .ok (.expCutoff (ParameterList.ofList
      [Parameter.mk3 "Prefactor" pa.value pa.unit,
       Parameter.mk3 "Index" pidx.value pidx.unit,
       Parameter.mk3 "Cutoff" (1 / plam.value) plam.unit,
       Parameter.mk3 "Scale" pref.value pref.unit])) := by
  refine ⟨?_, ?_, ?_⟩
  · simp [SpectralModelPowerLaw.from_plist, ha, hi, hr,
      Bind.bind, Except.bind, pure, Except.pure]
  · simp [SpectralModelPowerLaw2.from_plist, ha, hi, hemin, hemax,
      Bind.bind, Except.bind, pure, Except.pure]
  · simp [SpectralModelExpCutoff.from_plist, ha, hi, hlam, hr, hlz,
      Bind.bind, Except.bind, pure, Except.pure]

/-- C3 witness: a concrete catalog parameter list exercising all three
spectral factories; the index (2) is negated by both power-law variants
and copied by the cutoff variant, the cutoff is 1/2 for lambda 2, and
every unit is copied unchanged. -/
theorem C3_witness :
    ParameterList.getitem ⟨[Parameter.mk3 "amplitude" 10 "cm-2 s-1 TeV-1",
      Parameter.mk3 "index" 2 "", Parameter.mk3 "reference" 1 "TeV",
      Parameter.mk3 "emin" 1 "TeV", Parameter.mk3 "emax" 10 "TeV",
      Parameter.mk3 "lambda_" 2 "TeV-1"], none⟩ "index" =
        .ok (Parameter.mk3 "index" 2 "") ∧
    SpectralModelPowerLaw.from_plist ⟨[Parameter.mk3 "amplitude" 10 "cm-2 s-1 TeV-1",
      Parameter.mk3 "index" 2 "", Parameter.mk3 "reference" 1 "TeV",
      Parameter.mk3 "emin" 1 "TeV", Parameter.mk3 "emax" 10 "TeV",
      Parameter.mk3 "lambda_" 2 "TeV-1"], none⟩ =
      .ok (.powerLaw (ParameterList.ofList
        [Parameter.mk3 "Prefactor" 10 "cm-2 s-1 TeV-1",
         Parameter.mk3 "Index" (-2) "",
         Parameter.mk3 "Scale" 1 "TeV"])) ∧
    SpectralModelExpCutoff.from_plist ⟨[Parameter.mk3 "amplitude" 10 "cm-2 s-1 TeV-1",
      Parameter.mk3 "index" 2 "", Parameter.mk3 "reference" 1 "TeV",
      Parameter.mk3 "emin" 1 "TeV", Parameter.mk3 "emax" 10 "TeV",
      Parameter.mk3 "lambda_" 2 "TeV-1"], none⟩ =
      .ok (.expCutoff (ParameterList.ofList
        [Parameter.mk3 "Prefactor" 10 "cm-2 s-1 TeV-1",
         Parameter.mk3 "Index" 2 "",
         Parameter.mk3 "Cutoff" (1/2) "TeV-1",
         Parameter.mk3 "Scale" 1 "TeV"])) := by
  have h := C3_from_plist_transforms
    ⟨[Parameter.mk3 "amplitude" 10 "cm-2 s-1 TeV-1",
      Parameter.mk3 "index" 2 "", Parameter.mk3 "reference" 1 "TeV",
      Parameter.mk3 "emin" 1 "TeV", Parameter.mk3 "emax" 10 "TeV",
      Parameter.mk3 "lambda_" 2 "TeV-1"], none⟩
    (Parameter.mk3 "amplitude" 10 "cm-2 s-1 TeV-1")
    (Parameter.mk3 "index" 2 "") (Parameter.mk3 "reference" 1 "TeV")
    (Parameter.mk3 "emin" 1 "TeV") (Parameter.mk3 "emax" 10 "TeV")
    (Parameter.mk3 "lambda_" 2 "TeV-1")
    (by decide) (by decide) (by decide) (by decide) (by decide) (by decide)
    (by norm_num [Parameter.mk3])
  exact ⟨by decide, h.1, h.2.2⟩

/-- C4: `SpectralModel.from_xml_dict` on a PowerLaw-typed dict with three
Prefactor/Index/Scale parameter triples returns a `SpectralModelPowerLaw`
holding exactly those triples in input order; on any dict whose `@type`
matches no registered spectral type (with parameters that parse), it
fails with an `UnknownModelError` whose message names the unrecognized
tag. -/
theorem C4_spectral_from_xml_dict (s1 s2 s3 : PyStr) (q1 q2 q3 : ℚ)
    (u1 u2 u3 : String) (d : SpectrumXml) (ds : List ParamXmlAttrs)
    (pl : ParameterList) :
    (s1.pyFloat = some q1 → s2.pyFloat = some q2 → s3.pyFloat = some q3 →
      SpectralModel.from_xml_dict
        ⟨SpectralModelPowerLaw.xml_type, .many
          [⟨some (.raw "Prefactor"), some s1, some (.raw u1)⟩,
           ⟨some (.raw "Index"), some s2, some (.raw u2)⟩,
           ⟨some (.raw "Scale"), some s3, some (.raw u3)⟩]⟩ =
        .ok (.powerLaw ⟨[Parameter.mk3 "Prefactor" q1 u1,
          Parameter.mk3 "Index" q2 u2, Parameter.mk3 "Scale" q3 u3], none⟩)) ∧
    (d.atType ∉ [SpectralModelPowerLaw.xml_type, SpectralModelPowerLaw2.xml_type,
        SpectralModelExpCutoff.xml_type] →
      d.parameter = .many ds → ParameterList.from_list_of_dict_xml ds = .ok pl →
      ∃ msg, SpectralModel.from_xml_dict d = .error (.unknownModelError msg) ∧
        ∃ a b, msg = a ++ d.atType ++ b) := by
  constructor
  · intro h1 h2 h3
    simp [SpectralModel.from_xml_dict, ParameterList.from_list_of_dict_xml,
      Parameter.from_dict_xml, h1, h2, h3, PyStr.text,
      mapExcept, SpectralModelPowerLaw.xml_type,
      Bind.bind, Except.bind, pure, Except.pure]
  · intro hmem hds hpl
    simp only [List.mem_cons, List.not_mem_nil, or_false, not_or] at hmem
    obtain ⟨hne1, hne2, hne3⟩ := hmem
    refine ⟨"Unknown spatial model: " ++ d.atType, ?_, "Unknown spatial model: ", "", ?_⟩
    · simp [SpectralModel.from_xml_dict, hds, hpl, hne1, hne2, hne3,
        Bind.bind, Except.bind, pure, Except.pure]
    · simp

/-- C4 witness: a PowerLaw dict with concrete Prefactor/Index/Scale
triples comes back as a PowerLaw with the same triples in order, and a
dict typed "Bogus" fails with an `UnknownModelError` naming "Bogus". -/
theorem C4_witness :
    SpectralModel.from_xml_dict
      ⟨"PowerLaw", .many
        [⟨some (.raw "Prefactor"), some (.raw "10"), some (.raw "cm-2 s-1 TeV-1")⟩,
         ⟨some (.raw "Index"), some (.raw "-2.3"), some (.raw "")⟩,
         ⟨some (.raw "Scale"), some (.raw "1"), some (.raw "TeV")⟩]⟩ =
      .ok (.powerLaw ⟨[Parameter.mk3 "Prefactor" 10 "cm-2 s-1 TeV-1",
        Parameter.mk3 "Index" (-23/10) "", Parameter.mk3 "Scale" 1 "TeV"], none⟩) ∧
    ∃ msg, SpectralModel.from_xml_dict
      ⟨"Bogus", .many
        [⟨some (.raw "Prefactor"), some (.raw "10"), some (.raw "cm-2 s-1 TeV-1")⟩,
         ⟨some (.raw "Index"), some (.raw "-2.3"), some (.raw "")⟩,
         ⟨some (.raw "Scale"), some (.raw "1"), some (.raw "TeV")⟩]⟩ =
      .error (.unknownModelError msg) ∧ ∃ a b, msg = a ++ "Bogus" ++ b := by
  constructor
  · have h := (C4_spectral_from_xml_dict (.raw "10") (.raw "-2.3") (.raw "1")
      10 (-23/10) 1 "cm-2 s-1 TeV-1" "" "TeV"
      ⟨"Bogus", .absent⟩ [] (ParameterList.ofList [])).1
      (by simp +decide [PyStr.pyFloat, parseFloat, digitsVal, List.takeWhile])
      (by simp +decide [PyStr.pyFloat, parseFloat, digitsVal, List.takeWhile]; norm_num)
      (by simp +decide [PyStr.pyFloat, parseFloat, digitsVal, List.takeWhile])
    simpa [SpectralModelPowerLaw.xml_type] using h
  · exact (C4_spectral_from_xml_dict (.raw "10") (.raw "-2.3") (.raw "1")
      10 (-23/10) 1 "cm-2 s-1 TeV-1" "" "TeV"
      ⟨"Bogus", .many
        [⟨some (.raw "Prefactor"), some (.raw "10"), some (.raw "cm-2 s-1 TeV-1")⟩,
         ⟨some (.raw "Index"), some (.raw "-2.3"), some (.raw "")⟩,
         ⟨some (.raw "Scale"), some (.raw "1"), some (.raw "TeV")⟩]⟩
      [⟨some (.raw "Prefactor"), some (.raw "10"), some (.raw "cm-2 s-1 TeV-1")⟩,
       ⟨some (.raw "Index"), some (.raw "-2.3"), some (.raw "")⟩,
       ⟨some (.raw "Scale"), some (.raw "1"), some (.raw "TeV")⟩]
      ⟨[Parameter.mk3 "Prefactor" 10 "cm-2 s-1 TeV-1",
        Parameter.mk3 "Index" (-23/10) "", Parameter.mk3 "Scale" 1 "TeV"], none⟩).2
      (by decide) rfl
      (by
        simp [ParameterList.from_list_of_dict_xml, Parameter.from_dict_xml,
          mapExcept, PyStr.pyFloat, PyStr.text,
          Bind.bind, Except.bind, pure, Except.pure, ParameterList.ofList,
          parseFloat, digitsVal, List.takeWhile]
        norm_num)

/-- C8: when the spectrum entry parses, `SourceModel.from_xml_dict`
builds its spatial model from the `radialModel` entry when that key is
present, else from the `spatialModel` entry, and with neither key it
fails with an `UnknownModelError` stating that no spatial / radial model
was found. -/
theorem C8_spatial_key_selection (d : SourceXml) (sm : SpectralModel)
    (hs : SpectralModel.from_xml_dict d.spectrum = .ok sm) :
    (∀ r, d.radialModel = some r →
      SourceModel.from_xml_dict d =
        (SpatialModel.from_xml_dict r).map
          (fun sp => ⟨d.atName, d.atType, sp, sm⟩)) ∧
    (d.radialModel = none → ∀ s, d.spatialModel = some s →
      SourceModel.from_xml_dict d =
        (SpatialModel.from_xml_dict s).map
          (fun sp => ⟨d.atName, d.atType, sp, sm⟩)) ∧
    (d.radialModel = none → d.spatialModel = none →
      ∃ msg, SourceModel.from_xml_dict d = .error (.unknownModelError msg) ∧
        ∃ b, msg = "No spatial / radial model found for: " ++ b) := by
  refine ⟨?_, ?_, ?_⟩
  · intro r hr
    cases hm : SpatialModel.from_xml_dict r <;>
      simp [SourceModel.from_xml_dict, hs, hr, hm,
        Bind.bind, Except.bind, pure, Except.pure, Except.map]
  · intro hr s hsp
    cases hm : SpatialModel.from_xml_dict s <;>
      simp [SourceModel.from_xml_dict, hs, hr, hsp, hm,
        Bind.bind, Except.bind, pure, Except.pure, Except.map]
  · intro hr hsp
    exact ⟨"No spatial / radial model found for: " ++ d.pyStr,
      by simp [SourceModel.from_xml_dict, hs, hr, hsp,
        Bind.bind, Except.bind, pure, Except.pure], d.pyStr, rfl⟩

/-- C8 witness: with a parsing spectrum, a dict with a `radialModel` key
builds from it, a dict with only a `spatialModel` key builds from that,
and a dict with neither fails naming the missing spatial / radial
model. -/
theorem C8_witness :
    SourceModel.from_xml_dict
      ⟨"s1", "ExtendedSource",
        ⟨"PowerLaw", .many
          [⟨some (.raw "Prefactor"), some (.raw "10"), some (.raw "")⟩,
           ⟨some (.raw "Index"), some (.raw "2"), some (.raw "")⟩]⟩,
        some ⟨"RadialShell", .absent⟩, some ⟨"Point", .absent⟩⟩ =
      .ok ⟨"s1", "ExtendedSource", .shell (ParameterList.ofList []),
        .powerLaw ⟨[Parameter.mk3 "Prefactor" 10 "", Parameter.mk3 "Index" 2 ""], none⟩⟩ ∧
    SourceModel.from_xml_dict
      ⟨"s2", "PointSource",
        ⟨"PowerLaw", .many
          [⟨some (.raw "Prefactor"), some (.raw "10"), some (.raw "")⟩,
           ⟨some (.raw "Index"), some (.raw "2"), some (.raw "")⟩]⟩,
        none, some ⟨"Point", .absent⟩⟩ =
      .ok ⟨"s2", "PointSource", .point (ParameterList.ofList []),
        .powerLaw ⟨[Parameter.mk3 "Prefactor" 10 "", Parameter.mk3 "Index" 2 ""], none⟩⟩ ∧
    ∃ msg, SourceModel.from_xml_dict
      ⟨"s3", "PointSource",
        ⟨"PowerLaw", .many
          [⟨some (.raw "Prefactor"), some (.raw "10"), some (.raw "")⟩,
           ⟨some (.raw "Index"), some (.raw "2"), some (.raw "")⟩]⟩,
        none, none⟩ =
      .error (.unknownModelError msg) ∧
      ∃ b, msg = "No spatial / radial model found for: " ++ b := by
  have hspec : ∀ nm ty rm spm, SpectralModel.from_xml_dict
      (SourceXml.mk nm ty ⟨"PowerLaw", .many
        [⟨some (.raw "Prefactor"), some (.raw "10"), some (.raw "")⟩,
         ⟨some (.raw "Index"), some (.raw "2"), some (.raw "")⟩]⟩ rm spm).spectrum =
      .ok (.powerLaw ⟨[Parameter.mk3 "Prefactor" 10 "", Parameter.mk3 "Index" 2 ""], none⟩) := by
    intro nm ty rm spm
    simp +decide [SpectralModel.from_xml_dict, ParameterList.from_list_of_dict_xml,
      mapExcept, Parameter.from_dict_xml, PyStr.pyFloat, PyStr.text,
      parseFloat, digitsVal, List.takeWhile, SpectralModelPowerLaw.xml_type,
      Bind.bind, Except.bind, pure, Except.pure]
  refine ⟨?_, ?_, ?_⟩
  · have h := (C8_spatial_key_selection _ _ (hspec "s1" "ExtendedSource"
      (some ⟨"RadialShell", .absent⟩) (some ⟨"Point", .absent⟩))).1
      ⟨"RadialShell", .absent⟩ rfl
    rw [h]
    simp +decide [SpatialModel.from_xml_dict, Except.map]
  · have h := (C8_spatial_key_selection _ _ (hspec "s2" "PointSource"
      none (some ⟨"Point", .absent⟩))).2.1 rfl ⟨"Point", .absent⟩ rfl
    rw [h]
    simp +decide [SpatialModel.from_xml_dict, Except.map]
  · exact (C8_spatial_key_selection _ _ (hspec "s3" "PointSource" none none)).2.2 rfl rfl

/-- C7: requesting the correlated values of a `ParameterList` whose
covariance is absent, or whose stored matrix fails the validity check of
the correlation algorithm, fails with the "Covariance matrix not set."
error — never with a partial result. -/
theorem C7_ufloats_covariance_errors (pl : ParameterList)
    (h : pl.covariance = none ∨
      ∀ m, pl.covariance = some m → covValidB pl.parameters.length m = false) :
    pl._ufloats = .error (.valueError "Covariance matrix not set.") := by
  rcases h with h | h
  · simp [ParameterList._ufloats, correlated_values, h]
  · cases hc : pl.covariance with
    | none => simp [ParameterList._ufloats, correlated_values, hc]
    | some m =>
      have hv := h m hc
      simp [ParameterList._ufloats, correlated_values, hc, List.length_map] at hv ⊢
      simp [hv]

/-- C7 witness: a two-parameter list with no covariance set fails with
the "Covariance matrix not set." error. -/
theorem C7_witness :
    ParameterList._ufloats ⟨[Parameter.mk3 "amplitude" 10 "", Parameter.mk3 "index" 2 ""], none⟩ =
      .error (.valueError "Covariance matrix not set.") :=
  C7_ufloats_covariance_errors
    ⟨[Parameter.mk3 "amplitude" 10 "", Parameter.mk3 "index" 2 ""], none⟩ (Or.inl rfl)

theorem mapExcept_conv (errors : List (String × Quantity)) (l : List Parameter)
    (h : ∀ p ∈ l, (errQuantity errors p).unit = p.unit) :
    mapExcept (fun par => (Quantity.to (errQuantity errors par) par.unit).map Quantity.value) l =
      .ok (l.map (fun p => (errQuantity errors p).value)) := by
  induction l with
  | nil => rfl
  | cons p rest ih =>
    have hp := h p (by simp)
    have ih' := ih (fun q hq => h q (by simp [hq]))
    have hfp : (Quantity.to (errQuantity errors p) p.unit).map Quantity.value =
        .ok (errQuantity errors p).value := by
      simp [Quantity.to, hp, Except.map]
    simp [mapExcept, hfp, ih', Bind.bind, Except.bind, pure, Except.pure]

theorem mat_sq_np_diag_entry (vs : List ℚ) (i j : Nat)
    (hi : i < vs.length) (hj : j < vs.length) :
    ((mat_sq (np_diag vs)).getD i []).getD j 0 =
      if i = j then (vs.getD i 0) ^ 2 else 0 := by
  simp [mat_sq, np_diag, List.getD_eq_getElem?_getD, List.getElem?_map,
    List.getElem?_range, hi, hj]

/-- C6: `set_parameter_errors` (with every supplied error in a unit
convertible to — here, equal to — its parameter's unit) leaves the
parameters unchanged and sets the covariance to the square matrix whose
i-th diagonal entry is the square of the i-th parameter's error value
(zero for parameters absent from the mapping) and whose off-diagonal
entries are zero. -/
theorem C6_set_parameter_errors (pl : ParameterList) (errors : List (String × Quantity))
    (h : ∀ p ∈ pl.parameters, (errQuantity errors p).unit = p.unit) :
    ∃ M, pl.set_parameter_errors errors = .ok ⟨pl.parameters, some M⟩ ∧
      M.length = pl.parameters.length ∧
      (∀ i j, i < pl.parameters.length → j < pl.parameters.length →
        (M.getD i []).getD j 0 =
          if i = j then
            (errQuantity errors (pl.parameters.getD i (Parameter.mk3 "" 0 ""))).value ^ 2
          else 0) := by
  refine ⟨mat_sq (np_diag (pl.parameters.map (fun p => (errQuantity errors p).value))),
    ?_, ?_, ?_⟩
  · simp [ParameterList.set_parameter_errors, mapExcept_conv errors pl.parameters h,
      Bind.bind, Except.bind, pure, Except.pure]
  · simp [mat_sq, np_diag]
  · intro i j hi hj
    rw [mat_sq_np_diag_entry _ i j (by simpa using hi) (by simpa using hj)]
    have heq : (pl.parameters.map (fun p => (errQuantity errors p).value)).getD i 0 =
        (errQuantity errors (pl.parameters.getD i (Parameter.mk3 "" 0 ""))).value := by
      simp [List.getD_eq_getElem?_getD, List.getElem?_map, List.getElem?_eq_getElem hi]
    rw [heq]

/-- C6 witness: for the list [amplitude 10 cm-2 s-1, index 2 ''] and
errors {amplitude: 1 cm-2 s-1}, the covariance becomes diag([1, 0]):
entry (0,0) is 1² = 1, entry (1,1) is 0² = 0, off-diagonals 0. -/
theorem C6_witness :
    (∀ p ∈ [Parameter.mk3 "amplitude" 10 "cm-2 s-1", Parameter.mk3 "index" 2 ""],
      (errQuantity [("amplitude", ⟨1, "cm-2 s-1"⟩)] p).unit = p.unit) ∧
    ∃ M, ParameterList.set_parameter_errors
        ⟨[Parameter.mk3 "amplitude" 10 "cm-2 s-1", Parameter.mk3 "index" 2 ""], none⟩
        [("amplitude", ⟨1, "cm-2 s-1"⟩)] =
      .ok ⟨[Parameter.mk3 "amplitude" 10 "cm-2 s-1", Parameter.mk3 "index" 2 ""], some M⟩ ∧
      M.length = 2 ∧
      (∀ i j, i < 2 → j < 2 →
        (M.getD i []).getD j 0 =
          if i = j then
            (errQuantity [("amplitude", ⟨1, "cm-2 s-1"⟩)]
              ([Parameter.mk3 "amplitude" 10 "cm-2 s-1",
                Parameter.mk3 "index" 2 ""].getD i (Parameter.mk3 "" 0 ""))).value ^ 2
          else 0) :=
  ⟨by decide, C6_set_parameter_errors
    ⟨[Parameter.mk3 "amplitude" 10 "cm-2 s-1", Parameter.mk3 "index" 2 ""], none⟩
    [("amplitude", ⟨1, "cm-2 s-1"⟩)] (by decide)⟩

theorem xchildrenOfList_many (l : List α) (h : 2 ≤ l.length) :
    xchildrenOfList l = .many l := by
  match l with
  | [] => simp at h
  | [a] => simp at h
  | a :: b :: t => rfl

theorem from_dict_xml_roundtrip (p : Parameter) :
    Parameter.from_dict_xml p.to_xml_dict = .ok (rtParameter p) := by
  simp [Parameter.from_dict_xml, Parameter.to_xml_dict, PyStr.pyFloat, PyStr.text,
    rtParameter, Bind.bind, Except.bind, pure, Except.pure]

theorem mapExcept_params_roundtrip (ps : List Parameter) :
    mapExcept Parameter.from_dict_xml (ps.map Parameter.to_xml_dict) =
      .ok (ps.map rtParameter) := by
  induction ps with
  | nil => rfl
  | cons p rest ih =>
    simp [mapExcept, from_dict_xml_roundtrip, ih,
      Bind.bind, Except.bind, pure, Except.pure]

theorem from_list_of_dict_xml_roundtrip (ps : List Parameter) :
    ParameterList.from_list_of_dict_xml (ps.map Parameter.to_xml_dict) =
      .ok ⟨ps.map rtParameter, none⟩ := by
  simp [ParameterList.from_list_of_dict_xml, mapExcept_params_roundtrip,
    Bind.bind, Except.bind, pure, Except.pure]

theorem spectral_roundtrip (m : SpectralModel)
    (h : 2 ≤ m.parameters.parameters.length) :
    SpectralModel.from_xml_dict m.to_xml_dict = .ok (rtSpectral m) := by
  cases m with
  | powerLaw pl =>
    have h2 : 2 ≤ (pl.parameters.map Parameter.to_xml_dict).length := by
      simpa [SpectralModel.parameters] using h
    simp +decide [SpectralModel.to_xml_dict, SpectralModel.xml_type,
      SpectralModel.parameters, SpectralModel.from_xml_dict,
      xchildrenOfList_many _ h2, from_list_of_dict_xml_roundtrip, rtSpectral,
      SpectralModelPowerLaw.xml_type, SpectralModelPowerLaw2.xml_type,
      SpectralModelExpCutoff.xml_type, Bind.bind, Except.bind, pure, Except.pure]
  | powerLaw2 pl =>
    have h2 : 2 ≤ (pl.parameters.map Parameter.to_xml_dict).length := by
      simpa [SpectralModel.parameters] using h
    simp +decide [SpectralModel.to_xml_dict, SpectralModel.xml_type,
      SpectralModel.parameters, SpectralModel.from_xml_dict,
      xchildrenOfList_many _ h2, from_list_of_dict_xml_roundtrip, rtSpectral,
      SpectralModelPowerLaw.xml_type, SpectralModelPowerLaw2.xml_type,
      SpectralModelExpCutoff.xml_type, Bind.bind, Except.bind, pure, Except.pure]
  | expCutoff pl =>
    have h2 : 2 ≤ (pl.parameters.map Parameter.to_xml_dict).length := by
      simpa [SpectralModel.parameters] using h
    simp +decide [SpectralModel.to_xml_dict, SpectralModel.xml_type,
      SpectralModel.parameters, SpectralModel.from_xml_dict,
      xchildrenOfList_many _ h2, from_list_of_dict_xml_roundtrip, rtSpectral,
      SpectralModelPowerLaw.xml_type, SpectralModelPowerLaw2.xml_type,
      SpectralModelExpCutoff.xml_type, Bind.bind, Except.bind, pure, Except.pure]

theorem spatial_roundtrip (m : SpatialModel) :
    SpatialModel.from_xml_dict m.to_xml_dict = .ok (rtSpatial m) := by
  cases m <;>
    simp +decide [SpatialModel.to_xml_dict, SpatialModel.xml_type,
      SpatialModel.from_xml_dict, rtSpatial, ParameterList.ofList,
      SpatialModelPoint.xml_types, SpatialModelPoint.xml_type,
      SpatialModelGauss.xml_types, SpatialModelGauss.xml_type,
      SpatialModelShell.xml_types, SpatialModelShell.xml_type]

theorem source_roundtrip (s : SourceModel)
    (h : 2 ≤ s.spectral_model.parameters.parameters.length) :
    SourceModel.from_xml_dict s.to_xml_dict = .ok (rtSource s) := by
  simp [SourceModel.from_xml_dict, SourceModel.to_xml_dict,
    spectral_roundtrip s.spectral_model h, spatial_roundtrip, rtSource,
    Bind.bind, Except.bind, pure, Except.pure]

theorem mapExcept_sources_roundtrip (ss : List SourceModel)
    (h : ∀ s ∈ ss, 2 ≤ s.spectral_model.parameters.parameters.length) :
    mapExcept SourceModel.from_xml_dict (ss.map SourceModel.to_xml_dict) =
      .ok (ss.map rtSource) := by
  induction ss with
  | nil => rfl
  | cons s rest ih =>
    have hs := h s (by simp)
    have ih' := ih (fun t ht => h t (by simp [ht]))
    simp [mapExcept, source_roundtrip s hs, ih',
      Bind.bind, Except.bind, pure, Except.pure]

theorem rtSpectral_triples (m : SpectralModel) :
    paramTriples (rtSpectral m).parameters = paramTriples m.parameters := by
  cases m <;>
    simp [rtSpectral, SpectralModel.parameters, paramTriples, rtParameter, Parameter.mk3]

theorem rtSpatial_empty (m : SpatialModel) :
    (rtSpatial m).parameters.parameters = [] := by
  cases m <;> simp [rtSpatial, SpatialModel.parameters, ParameterList.ofList]

/-- C1 (amended round-trip): for a library with at least two sources,
each of whose spectral models has at least two parameters (so that the
`xmltodict` single-element convention folds every repeated element into
a list), `from_xml ∘ to_xml` reconstructs the same number of sources
with identical `source_name`, `source_type` and spectral parameter
name/value/unit triples — while each spatial model comes back as the
same variant with an *empty* parameter list, because
`SpatialModel.from_xml_dict` discards serialized spatial parameters. -/
theorem C1_roundtrip_amended (lib : SourceLibrary)
    (hN : 2 ≤ lib.source_list.length)
    (hP : ∀ s ∈ lib.source_list, 2 ≤ s.spectral_model.parameters.parameters.length) :
    SourceLibrary.from_xml lib.to_xml_parsed = .ok ⟨lib.source_list.map rtSource⟩ ∧
    (lib.source_list.map rtSource).length = lib.source_list.length ∧
    (∀ s, (rtSource s).source_name = s.source_name ∧
      (rtSource s).source_type = s.source_type ∧
      paramTriples (rtSource s).spectral_model.parameters =
        paramTriples s.spectral_model.parameters ∧
      (rtSource s).spatial_model.parameters.parameters = []) := by
  refine ⟨?_, by simp, ?_⟩
  · have hlen : 2 ≤ (lib.source_list.map SourceModel.to_xml_dict).length := by
      simpa using hN
    simp [SourceLibrary.to_xml_parsed, xchildrenOfList_many _ hlen,
      SourceLibrary.from_xml, mapExcept_sources_roundtrip lib.source_list hP,
      Bind.bind, Except.bind, pure, Except.pure]
  · intro s
    exact ⟨rfl, rfl, rtSpectral_triples s.spectral_model, rtSpatial_empty s.spatial_model⟩

/-- C1 counterexample: a concrete two-source library whose Shell spatial
models carry four parameters each round-trips successfully, but the
reconstructed spatial parameter lists are empty rather than identical to
the originals — refuting the claim that the spatial name/value/unit
triples are preserved by `from_xml ∘ to_xml`. -/
theorem C1_counterexample :
    (SourceLibrary.from_xml (SourceLibrary.to_xml_parsed ⟨[
      ⟨"source 1", "ExtendedSource",
        .shell (ParameterList.ofList [Parameter.mk3 "GLON" 1 "deg",
          Parameter.mk3 "GLAT" 2 "deg", Parameter.mk3 "Radius" 3 "deg",
          Parameter.mk3 "Width" 0 "deg"]),
        .powerLaw (ParameterList.ofList [Parameter.mk3 "Prefactor" 10 "",
          Parameter.mk3 "Index" (-2) "", Parameter.mk3 "Scale" 1 ""])⟩,
      ⟨"source 2", "ExtendedSource",
        .shell (ParameterList.ofList [Parameter.mk3 "GLON" 4 "deg",
          Parameter.mk3 "GLAT" 5 "deg", Parameter.mk3 "Radius" 6 "deg",
          Parameter.mk3 "Width" 0 "deg"]),
        .powerLaw (ParameterList.ofList [Parameter.mk3 "Prefactor" 20 "",
          Parameter.mk3 "Index" (-3) "", Parameter.mk3 "Scale" 1 ""])⟩]⟩)).map
      (fun l => l.source_list.map (fun s => paramTriples s.spatial_model.parameters)) =
      .ok [[], []] ∧
    ([(⟨"source 1", "ExtendedSource",
        .shell (ParameterList.ofList [Parameter.mk3 "GLON" 1 "deg",
          Parameter.mk3 "GLAT" 2 "deg", Parameter.mk3 "Radius" 3 "deg",
          Parameter.mk3 "Width" 0 "deg"]),
        .powerLaw (ParameterList.ofList [Parameter.mk3 "Prefactor" 10 "",
          Parameter.mk3 "Index" (-2) "", Parameter.mk3 "Scale" 1 ""])⟩ : SourceModel),
      ⟨"source 2", "ExtendedSource",
        .shell (ParameterList.ofList [Parameter.mk3 "GLON" 4 "deg",
          Parameter.mk3 "GLAT" 5 "deg", Parameter.mk3 "Radius" 6 "deg",
          Parameter.mk3 "Width" 0 "deg"]),
        .powerLaw (ParameterList.ofList [Parameter.mk3 "Prefactor" 20 "",
          Parameter.mk3 "Index" (-3) "", Parameter.mk3 "Scale" 1 ""])⟩].map
      (fun s => paramTriples s.spatial_model.parameters)) ≠ [[], []] := by
  constructor
  · simp +decide [SourceLibrary.to_xml_parsed, SourceLibrary.from_xml, xchildrenOfList,
      SourceModel.to_xml_dict, SourceModel.from_xml_dict, mapExcept,
      SpectralModel.to_xml_dict, SpectralModel.from_xml_dict,
      SpatialModel.to_xml_dict, SpatialModel.from_xml_dict,
      SpectralModel.xml_type, SpatialModel.xml_type, SpectralModel.parameters,
      SpatialModel.parameters, ParameterList.from_list_of_dict_xml,
      Parameter.from_dict_xml, Parameter.to_xml_dict, PyStr.pyFloat, PyStr.text,
      SpectralModelPowerLaw.xml_type, SpectralModelPowerLaw2.xml_type,
      SpectralModelExpCutoff.xml_type,
      SpatialModelPoint.xml_types, SpatialModelPoint.xml_type,
      SpatialModelGauss.xml_types, SpatialModelGauss.xml_type,
      SpatialModelShell.xml_types, SpatialModelShell.xml_type,
      ParameterList.ofList, paramTriples, Parameter.mk3, Except.map,
      Bind.bind, Except.bind, pure, Except.pure]
  · simp [paramTriples, ParameterList.ofList, SpatialModel.parameters]

/-- C1 witness (for the amended theorem): a concrete two-source library
with three-parameter PowerLaw spectra satisfies the hypotheses and
round-trips as described. -/
theorem C1_witness :
    (2 : Nat) ≤ (SourceLibrary.mk [
      ⟨"w1", "PointSource", .point (ParameterList.ofList [Parameter.mk3 "GLON" 1 "deg"]),
        .powerLaw (ParameterList.ofList [Parameter.mk3 "Prefactor" 10 "",
          Parameter.mk3 "Index" (-2) "", Parameter.mk3 "Scale" 1 ""])⟩,
      ⟨"w2", "ExtendedSource", .gauss (ParameterList.ofList []),
        .powerLaw2 (ParameterList.ofList [Parameter.mk3 "Integral" 5 "",
          Parameter.mk3 "Index" (-3) "", Parameter.mk3 "LowerLimit" 1 "",
          Parameter.mk3 "UpperLimit" 10 ""])⟩]).source_list.length ∧
    SourceLibrary.from_xml (SourceLibrary.to_xml_parsed (SourceLibrary.mk [
      ⟨"w1", "PointSource", .point (ParameterList.ofList [Parameter.mk3 "GLON" 1 "deg"]),
        .powerLaw (ParameterList.ofList [Parameter.mk3 "Prefactor" 10 "",
          Parameter.mk3 "Index" (-2) "", Parameter.mk3 "Scale" 1 ""])⟩,
      ⟨"w2", "ExtendedSource", .gauss (ParameterList.ofList []),
        .powerLaw2 (ParameterList.ofList [Parameter.mk3 "Integral" 5 "",
          Parameter.mk3 "Index" (-3) "", Parameter.mk3 "LowerLimit" 1 "",
          Parameter.mk3 "UpperLimit" 10 ""])⟩])) =
      .ok ⟨[
        ⟨"w1", "PointSource", .point (ParameterList.ofList [Parameter.mk3 "GLON" 1 "deg"]),
          .powerLaw (ParameterList.ofList [Parameter.mk3 "Prefactor" 10 "",
            Parameter.mk3 "Index" (-2) "", Parameter.mk3 "Scale" 1 ""])⟩,
        ⟨"w2", "ExtendedSource", .gauss (ParameterList.ofList []),
          .powerLaw2 (ParameterList.ofList [Parameter.mk3 "Integral" 5 "",
            Parameter.mk3 "Index" (-3) "", Parameter.mk3 "LowerLimit" 1 "",
            Parameter.mk3 "UpperLimit" 10 ""])⟩].map rtSource⟩ := by
  refine ⟨by simp, ?_⟩
  exact (C1_roundtrip_amended _ (by simp) (by
    intro s hs
    simp [SpectralModel.parameters, ParameterList.ofList] at hs ⊢
    rcases hs with h | h <;> subst h <;> simp [SpectralModel.parameters])).1
